import Mathlib

/-!
Shallow embedding of the validator-info repository's two scripts
(scripts/validate_many.py and scripts/generate_validators_json.py).

Python runtime values produced by json.load are modelled by the inductive
type PyVal; Python exceptions by the Except monad over PyErr.  External
effects (reading the record file, loading the reference example file, the
HTTP logo fetch, and the on-chain get_validator call) are modelled as
oracle parameters recording the outcome each call would produce, so the
pure logic of the scripts is translated line by line while I/O outcomes
stay universally quantified.

Floating point numbers are abstracted: a PyVal.float carries its decimal
rendering as an uninterpreted token (no claim computes with floats; the
schema checker only compares runtime types, and the float type tag is
what matters there).
-/

namespace ValidatorInfo

/-- Python runtime values as produced by json.load, plus None.  Dict keys
coming from JSON are strings; insertion order is kept, as Python dicts do. -/
inductive PyVal where
  | none
  | bool (b : Bool)
  | int (n : Int)
  | float (tok : String)
  | str (s : String)
  | list (xs : List PyVal)
  | dict (kvs : List (String × PyVal))

/-- Python exceptions that the modelled code can raise or propagate. -/
inductive PyErr where
  | attributeError (msg : String)
  | typeError (msg : String)
  | uncaught (msg : String)
deriving Repr, DecidableEq

/-- Python runtime type tags (the result of type(x) on a JSON value). -/
inductive PyType where
  | noneType
  | bool
  | int
  | float
  | str
  | list
  | dict
deriving Repr, DecidableEq

/-- type(v) for a PyVal. -/
def pyType : PyVal → PyType
  | .none => .noneType
  | .bool _ => .bool
  | .int _ => .int
  | .float _ => .float
  | .str _ => .str
  | .list _ => .list
  | .dict _ => .dict

/-- type(v).__name__ as Python renders it. -/
def pyTypeName : PyType → String
  | .noneType => "NoneType"
  | .bool => "bool"
  | .int => "int"
  | .float => "float"
  | .str => "str"
  | .list => "list"
  | .dict => "dict"

/-- Python str.strip() with no argument: drop whitespace from both ends
(modelled over the character list, so that concrete records compute by
kernel reduction). -/
def pyStrip (s : String) : String :=
  String.mk (((s.data.dropWhile Char.isWhitespace).reverse.dropWhile
    Char.isWhitespace).reverse)

/-- Python str.startswith (modelled over the character lists). -/
def pyStartsWith (s p : String) : Bool :=
  List.isPrefixOf p.data s.data

mutual

/-- Python repr() restricted to JSON-shaped values (string escaping inside
repr of strings is not modelled; records under validation never need it). -/
def pyRepr : PyVal → String
  | .none => "None"
  | .bool b => if b then "True" else "False"
  | .int n => toString n
  | .float tok => tok
  | .str s => "'" ++ (s ++ "'")
  | .list xs => "[" ++ (pyReprList xs ++ "]")
  | .dict kvs => "\x7b" ++ (pyReprDict kvs ++ "\x7d")

/-- Comma-joined reprs of a list's elements. -/
def pyReprList : List PyVal → String
  | [] => ""
  | [x] => pyRepr x
  | x :: y :: rest => pyRepr x ++ (", " ++ pyReprList (y :: rest))

/-- Comma-joined key: value reprs of a dict's items. -/
def pyReprDict : List (String × PyVal) → String
  | [] => ""
  | [(k, v)] => "'" ++ (k ++ ("': " ++ pyRepr v))
  | (k, v) :: kv :: rest => "'" ++ (k ++ ("': " ++ (pyRepr v ++ (", " ++ pyReprDict (kv :: rest)))))

end

/-- Python str() on a PyVal (str(x) == x for strings, repr otherwise on
JSON-shaped data; this is what an f-string interpolation produces). -/
def pyStr : PyVal → String
  | .str s => s
  | v => pyRepr v

/-- First value bound to a key in a string-keyed dict (Python dict lookup;
JSON objects have unique keys, duplicates keep the first here). -/
def dictGet? (kvs : List (String × PyVal)) (key : String) : Option PyVal :=
  match kvs with
  | [] => Option.none
  | (k, v) :: rest => if k == key then some v else dictGet? rest key

/-- The value a dict lookup with a default yields (the pure core of
Python's dict .get). -/
def dGet (kvs : List (String × PyVal)) (key : String) (dflt : PyVal) : PyVal :=
  (dictGet? kvs key).getD dflt

/-- data.get(key, dflt) — Python dict .get with a default; raises
AttributeError on a value with no .get method (any non-dict). -/
def pyGet (v : PyVal) (key : String) (dflt : PyVal) : Except PyErr PyVal :=
  match v with
  | .dict kvs => .ok (dGet kvs key dflt)
  | v => .error (.attributeError ("'" ++ (pyTypeName (pyType v) ++ "' object has no attribute 'get'")))

/-- Whether the character list pat occurs inside l (Python substring test
for the membership operator on strings). -/
def listHasSub (pat : List Char) : List Char → Bool
  | [] => pat.isEmpty
  | c :: rest => List.isPrefixOf pat (c :: rest) || listHasSub pat rest

/-- Python equality between a str and an arbitrary PyVal: a str compares
equal only to an equal str. -/
def pyEqStr (s : String) (v : PyVal) : Bool :=
  match v with
  | .str t => s == t
  | _ => false

/-- Python membership test: key in v, for a string key.  Dicts test keys,
lists test elements, strings test substrings; other values raise TypeError. -/
def pyContains (v : PyVal) (key : String) : Except PyErr Bool :=
  match v with
  | .dict kvs => .ok (kvs.any fun kv => kv.1 == key)
  | .list xs => .ok (xs.any fun x => pyEqStr key x)
  | .str s => .ok (listHasSub key.data s.data)
  | v => .error (.typeError ("argument of type '" ++ (pyTypeName (pyType v) ++ "' is not iterable")))

/-- Python subscription v[key] with a string key: only a dict succeeds. -/
def pySubscr (v : PyVal) (key : String) : Except PyErr PyVal :=
  match v with
  | .dict kvs =>
    match dictGet? kvs key with
    | some w => .ok w
    | Option.none => .error (.uncaught ("KeyError: '" ++ (key ++ "'")))
  | .list _ => .error (.typeError "list indices must be integers or slices, not str")
  | .str _ => .error (.typeError "string indices must be integers")
  | v => .error (.typeError ("'" ++ (pyTypeName (pyType v) ++ "' object is not subscriptable")))

/-- v.keys(): the key list of a dict; any other value raises AttributeError. -/
def pyKeys (v : PyVal) : Except PyErr (List String) :=
  match v with
  | .dict kvs => .ok (kvs.map Prod.fst)
  | v => .error (.attributeError ("'" ++ (pyTypeName (pyType v) ++ "' object has no attribute 'keys'")))

/-- Access a string method on a PyVal: yields the underlying string for a
str, raises AttributeError (naming the method) for anything else. -/
def pyStrAttr (v : PyVal) (attr : String) : Except PyErr String :=
  match v with
  | .str s => .ok s
  | v => .error (.attributeError
      ("'" ++ (pyTypeName (pyType v) ++ ("' object has no attribute '" ++ (attr ++ "'")))))

/-- The type-mismatch diagnostic of check_schema. -/
def typeMismatchMsg (key : String) (exVal tv : PyVal) : String :=
  "❌ Type mismatch for '" ++
    (key ++ ("': expected " ++ (pyTypeName (pyType exVal) ++ (", got " ++ pyTypeName (pyType tv)))))

/-- The missing-field diagnostic of check_schema. -/
def missingMsg (key : String) : String :=
  "❌ Missing field: '" ++ (key ++ "'")

/-- First loop of check_schema: for every (key, example_value) of the
reference example, test membership in test_data, then compare runtime
types of test_data[key] and the example value. -/
def schemaLoop1 (test_data : PyVal) :
    List (String × PyVal) → Except PyErr (Bool × List String)
  | [] => .ok (true, [])
  | (key, exVal) :: rest =>
    match pyContains test_data key with
    | .error e => .error e
    | .ok c =>
      if c then
        match pySubscr test_data key with
        | .error e => .error e
        | .ok tv =>
          match schemaLoop1 test_data rest with
          | .error e => .error e
          | .ok (okRest, outRest) =>
            if pyType tv == pyType exVal then .ok (okRest, outRest)
            else .ok (false, typeMismatchMsg key exVal tv :: outRest)
      else
        match schemaLoop1 test_data rest with
        | .error e => .error e
        | .ok (_, outRest) => .ok (false, missingMsg key :: outRest)

/-- Second loop of check_schema: a warning for every key of test_data that
the reference example does not have (never touches ok). -/
def schemaLoop2 (exmpl : List (String × PyVal)) (keys : List String) : List String :=
  keys.filterMap fun key =>
    if exmpl.any (fun kv => kv.1 == key) then Option.none
    else some ("⚠️ Extra field not in schema: '" ++ (key ++ "'"))

/-- check_schema of validate_many.py.  The reference example file lives
outside the scripts; its load outcome (open + json.load, uncaught on
failure) is the exampleLoad parameter: an error propagates, a success
yields the example dict. -/
def check_schema (exampleLoad : Except String (List (String × PyVal)))
    (test_data : PyVal) : Except PyErr (Bool × List String) :=
  match exampleLoad with
  | .error e => .error (.uncaught e)
  | .ok exmpl =>
    match schemaLoop1 test_data exmpl with
    | .error e => .error e
    | .ok (ok, out1) =>
      match pyKeys test_data with
      | .error e => .error e
      | .ok ks => .ok (ok, out1 ++ schemaLoop2 exmpl ks)

/-- check_logo of validate_many.py.  fetch records, per url string, the
outcome of requests.get: an exception message (caught by the code) or a
pair (status_code, Content-Type header, defaulted to ""). -/
def check_logo (fetch : String → Except String (Nat × String))
    (logo_url : PyVal) : Except PyErr (Bool × List String) :=
  let fail1 : Bool :=
    match logo_url with
    | .str s => pyStrip s == ""
    | _ => true
  let out1 := if fail1 then ["❌ Invalid 'logo': field is missing or empty"] else []
  match pyStrAttr logo_url "startswith" with
  | .error e => .error e
  | .ok s =>
    let fail2 := !pyStartsWith s "https://"
    let out2 := if fail2 then ["❌ Invalid 'logo': must start with https://"] else []
    match fetch s with
    | .error e => .ok (false, out1 ++ (out2 ++ ["❌ Failed to fetch logo: " ++ e]))
    | .ok (status, ctype) =>
      let fail3 := status != 200
      let out3 := if fail3 then ["❌ Logo URL returned HTTP " ++ toString status] else []
      let fail4 := !pyStartsWith ctype "image/"
      let out4 := if fail4 then ["❌ Logo URL is not an image (Content-Type: " ++ (ctype ++ ")")] else []
      .ok (!(fail1 || fail2 || fail3 || fail4), out1 ++ (out2 ++ (out3 ++ out4)))

/-- Outcome of opening and json.loads-ing one record file (the try block
labelled Check 0 in check_filename): a json.JSONDecodeError, any other
exception from open/read, or the parsed value. -/
inductive LoadResult where
  | jsonError (msg : String)
  | readError (msg : String)
  | ok (data : PyVal)

/-- The external world of one validate_many.py run, per call site: the
record-file load keyed by (network, filename), the reference-example load,
the HTTP logo fetch keyed by url, and the on-chain get_validator call
keyed by (validator id, network).  An .error in fetch is the exception
requests.get would raise (caught by check_logo); an .error in chain is the
exception the web3 call would raise (never caught). -/
structure Env where
  fileLoad : String → String → LoadResult
  exampleLoad : Except String (List (String × PyVal))
  fetch : String → Except String (Nat × String)
  chain : PyVal → String → Except String (String × String)

/-- Split a character list at every occurrence of a character (the core of
os.path.basename, over lists so that concrete paths compute). -/
def splitOnChar (c : Char) : List Char → List (List Char)
  | [] => [[]]
  | x :: rest =>
    match splitOnChar c rest with
    | [] => [[x]]
    | h :: t => if x = c then [] :: (h :: t) else (x :: h) :: t

/-- os.path.basename: the part of a path after its last slash. -/
def basename (path : String) : String :=
  String.mk ((splitOnChar '/' path.data).getLastD path.data)

/-- The name check of check_filename: data.get("name", "") must be a str
that is non-empty after stripping. -/
def nameCheck (name_value : PyVal) : Bool × List String :=
  match name_value with
  | .str s =>
    if pyStrip s == "" then (false, ["❌ Invalid 'name': field is empty or missing"])
    else (true, ["✅ Name is valid: '" ++ (pyStrip s ++ "'")])
  | _ => (false, ["❌ Invalid 'name': field is empty or missing"])

/-- The secp half of the on-chain key comparison in check_filename. -/
def secpCheck (secp_chain : String) (secp_local : PyVal) : Bool × List String :=
  if pyEqStr secp_chain secp_local then (true, ["✅ SECP key matches on-chain value"])
  else (false, ["❌ SECP mismatch:\n   local=" ++ (pyStr secp_local ++ ("\n   chain=" ++ secp_chain))])

/-- The bls half of the on-chain key comparison in check_filename. -/
def blsCheck (bls_chain : String) (bls_local : PyVal) : Bool × List String :=
  if pyEqStr bls_chain bls_local then (true, ["✅ BLS key matches on-chain value"])
  else (false, ["❌ BLS mismatch:\n   local=" ++ (pyStr bls_local ++ ("\n   chain=" ++ bls_chain))])

/-- The filename check of check_filename: the basename must equal the
record's secp value (as Python renders it) followed by ".json". -/
def filenameCheck (secp_local : PyVal) (bname : String) : Bool × List String :=
  let expected := pyStr secp_local ++ ".json"
  if bname == expected then (true, ["✅ Filename matches secp key"])
  else (false, ["❌ Filename mismatch: expected '" ++ (expected ++ ("', got '" ++ (bname ++ "'")))])

/-- The closing success banner of check_filename. -/
def successBanner : String := "\n🎉 Validation successful!"

/-- The header lines check_filename prints after loading a record. -/
def headerLines (network : String) (validator_id secp_local bls_local : PyVal) : List String :=
  ["\n🌐 Network: " ++ network,
   "🆔 Validator ID: " ++ pyStr validator_id,
   "🔑 SECP: " ++ pyStr secp_local,
   "🔑 BLS : " ++ (pyStr bls_local ++ "\n"),
   "✅ JSON is valid"]

/-- The name, logo, identity and filename checks of check_filename, from
just after the schema gate to the success banner: each is non-terminal,
the verdict is their conjunction, and the banner is appended iff all
passed.  A raise inside check_logo or from the on-chain call propagates. -/
def postSchemaChecks (env : Env) (network bname : String)
    (data validator_id secp_local bls_local : PyVal) :
    Except PyErr (Bool × List String) :=
  match pyGet data "name" (.str "") with
  | .error e => .error e
  | .ok name_value =>
    let name_res := nameCheck name_value
    match pyGet data "logo" .none with
    | .error e => .error e
    | .ok logo =>
      match check_logo env.fetch logo with
      | .error e => .error e
      | .ok logo_res =>
        let logo_out := if logo_res.1 then ["✅ Logo is valid"]
          else logo_res.2 ++ ["❌ Logo " ++ (pyStr logo ++ " check failed")]
        match env.chain validator_id network with
        | .error e => .error (.uncaught e)
        | .ok chain_keys =>
          let secp_res := secpCheck chain_keys.1 secp_local
          let bls_res := blsCheck chain_keys.2 bls_local
          let fn_res := filenameCheck secp_local bname
          let is_valid := name_res.1 && (logo_res.1 && (secp_res.1 && (bls_res.1 && fn_res.1)))
          let banner := if is_valid then [successBanner] else []
          .ok (is_valid,
            name_res.2 ++ (logo_out ++ (secp_res.2 ++ (bls_res.2 ++ (fn_res.2 ++ banner)))))

/-- check_filename of validate_many.py: the per-record validator.  It loads
the file, prints the header, runs the schema check (terminal on failure),
then hands over to postSchemaChecks for the four non-terminal checks. -/
def check_filename (env : Env) (network filename : String) :
    Except PyErr (Bool × List String) :=
  let bname := basename filename
  match env.fileLoad network filename with
  | .jsonError e => .ok (false, ["❌ Invalid JSON format: " ++ e])
  | .readError e => .ok (false, ["❌ Failed to read file: " ++ e])
  | .ok data =>
    match pyGet data "id" .none with
    | .error e => .error e
    | .ok validator_id =>
      match pyGet data "secp" .none with
      | .error e => .error e
      | .ok secp_local =>
        match pyGet data "bls" .none with
        | .error e => .error e
        | .ok bls_local =>
          let header := headerLines network validator_id secp_local bls_local
          match check_schema env.exampleLoad data with
          | .error e => .error e
          | .ok (schema_ok, schema_output) =>
            if !schema_ok then
              .ok (false, header ++ (schema_output ++ ["❌ Schema check failed"]))
            else
              match postSchemaChecks env network bname data validator_id secp_local bls_local with
              | .error e => .error e
              | .ok (is_valid, out) =>
                .ok (is_valid, header ++ (["✅ Schema and types match"] ++ out))

/-- The per-file loop of main in validate_many.py: validate each file in
order, collect the failing filenames and the reports to print (always in
verbose mode, only for failing records otherwise).  A raise from
check_filename propagates out of the loop. -/
def mainLoop (env : Env) (network : String) (verbose : Bool) :
    List String → Except PyErr (List String × List String)
  | [] => .ok ([], [])
  | f :: rest =>
    match check_filename env network f with
    | .error e => .error e
    | .ok (is_valid, output) =>
      match mainLoop env network verbose rest with
      | .error e => .error e
      | .ok (problems, outputs) =>
        let problems := if !is_valid then f :: problems else problems
        let outputs :=
          if !is_valid || verbose then String.intercalate "\n" output :: outputs else outputs
        .ok (problems, outputs)

/-- Outcome of a whole batch run: an uncaught per-record exception, the
single raised Exception listing the failing files, or success. -/
inductive BatchResult where
  | aborted (e : PyErr)
  | failed (msg : String)
  | success
deriving Repr, DecidableEq

/-- The tail of main in validate_many.py: after the loop, raise one
Exception naming every failing file if any, else print the success line. -/
def runMain (env : Env) (network : String) (verbose : Bool)
    (filenames : List String) : BatchResult :=
  match mainLoop env network verbose filenames with
  | .error e => .aborted e
  | .ok (problems, _) =>
    if problems.length > 0 then
      .failed ("❌ Validation failed for " ++
        (toString problems.length ++ (" files: " ++ String.intercalate " " problems)))
    else .success

/-- Python dict key equality restricted to hashable JSON scalars (Python
also equates True with 1 and False with 0; int/float cross-equality is
not modelled, floats being abstract tokens here). -/
def pyKeyEq : PyVal → PyVal → Bool
  | .none, .none => true
  | .bool a, .bool b => a == b
  | .int a, .int b => a == b
  | .bool a, .int b => (if a then (1 : Int) else 0) == b
  | .int a, .bool b => a == (if b then (1 : Int) else 0)
  | .float a, .float b => a == b
  | .str a, .str b => a == b
  | _, _ => false

/-- Whether a PyVal may be a Python dict key (lists and dicts are
unhashable; using one as a key raises TypeError). -/
def pyHashable : PyVal → Bool
  | .list _ => false
  | .dict _ => false
  | _ => true

/-- Assignment d[k] = v on a PyVal-keyed dict: replace in place if an equal
key exists, append otherwise (Python dicts keep insertion order and keep
the original key object on overwrite). -/
def pdictSet (kvs : List (PyVal × PyVal)) (k v : PyVal) : List (PyVal × PyVal) :=
  match kvs with
  | [] => [(k, v)]
  | (k', v') :: rest =>
    if pyKeyEq k' k then (k', v) :: rest else (k', v') :: pdictSet rest k v

/-- Assignment data[key] = v on a string-keyed PyVal dict (the mutation
data["name"] = secp in read_validators); non-dicts do not support item
assignment. -/
def pyDictSet (data : PyVal) (key : String) (v : PyVal) : Except PyErr PyVal :=
  match data with
  | .dict kvs => .ok (.dict (go kvs))
  | d => .error (.typeError
      ("'" ++ (pyTypeName (pyType d) ++ "' object does not support item assignment")))
where
  go : List (String × PyVal) → List (String × PyVal)
  | [] => [(key, v)]
  | (k', v') :: rest => if k' == key then (k', v) :: rest else (k', v') :: go rest

/-- The loop body of read_validators in generate_validators_json.py,
iterated over the matched files.  Each file is given with the outcome of
open + json.load on it; an .error is an exception of the caught classes
(json.JSONDecodeError, IOError), which the code turns into a warning and
skips.  Everything after the load (the .get calls, .strip on the name,
the dict insertion) runs outside the try and can raise. -/
def readValidatorsLoop (acc : List (PyVal × PyVal)) :
    List (String × Except String PyVal) →
      Except PyErr (List (PyVal × PyVal) × List String)
  | [] => .ok (acc, [])
  | (fname, .error e) :: rest =>
    match readValidatorsLoop acc rest with
    | .error e' => .error e'
    | .ok (d, warns) => .ok (d, ("Warning: Failed to read " ++ (fname ++ (": " ++ e))) :: warns)
  | (_, .ok data) :: rest =>
    match pyGet data "secp" (.str "") with
    | .error e => .error e
    | .ok secp =>
      match pyGet data "name" (.str "") with
      | .error e => .error e
      | .ok nameVal =>
        match pyStrAttr nameVal "strip" with
        | .error e => .error e
        | .ok nameStr =>
          match (if pyStrip nameStr == "" then pyDictSet data "name" secp else .ok data) with
          | .error e => .error e
          | .ok data' =>
            if pyHashable secp then
              readValidatorsLoop (pdictSet acc secp data') rest
            else
              .error (.typeError ("unhashable type: '" ++ (pyTypeName (pyType secp) ++ "'")))

/-- read_validators of generate_validators_json.py: fold every matched
file into a secp-keyed mapping, defaulting an empty name to the secp
value, with warnings for the files whose load raised a caught exception. -/
def read_validators (files : List (String × Except String PyVal)) :
    Except PyErr (List (PyVal × PyVal) × List String) :=
  readValidatorsLoop [] files

/-! ## Helper lemmas -/

/-- Strings whose first characters already differ are different. -/
theorem ne_of_take (p q : String) (n : Nat) (h : p.data.take n ≠ q.data.take n) :
    p ≠ q := fun he => h (by rw [he])

/-- The first n characters of a concatenation, when the left part is long
enough (used on diagnostic lines of the shape fixed-head ++ interpolation). -/
theorem data_take_append (p x : String) (n : Nat) (h : n ≤ p.data.length) :
    ((p ++ x).data.take n) = p.data.take n := by
  rw [String.data_append]
  exact List.take_append_of_le_length h

/-- A diagnostic line with a fixed head of at least n characters differs
from q whenever the heads differ. -/
theorem append_ne_of_take (p x q : String) (n : Nat) (hlen : n ≤ p.data.length)
    (h : p.data.take n ≠ q.data.take n) : p ++ x ≠ q := by
  apply ne_of_take _ _ n
  rwa [data_take_append _ _ _ hlen]

/-- dictGet? finds a value exactly when some key of the dict matches. -/
theorem dictGet?_isSome_iff_any (kvs : List (String × PyVal)) (key : String) :
    (dictGet? kvs key).isSome = kvs.any fun kv => kv.1 == key := by
  induction kvs with
  | nil => rfl
  | cons kv rest ih =>
    obtain ⟨k, v⟩ := kv
    simp only [dictGet?, List.any_cons]
    by_cases h : k == key <;> simp [h, ih]

/-! ## C7 — Filename Policy -/

/-- C7: the Filename check passes iff the basename equals the string
rendering of the record's secp value followed by ".json" (exact,
case-sensitive string equality, no trimming); in particular, for a record
whose secp field holds the string s it passes iff the basename is
s ++ ".json", and any deviation fails with a message reporting both the
expected and the actual filenames. -/
theorem C7_filenameCheck_exact_match (secp_local : PyVal) (bname : String) :
    ((filenameCheck secp_local bname).1 = true ↔ bname = pyStr secp_local ++ ".json") ∧
    (∀ s, ((filenameCheck (PyVal.str s) bname).1 = true ↔ bname = s ++ ".json")) ∧
    ((filenameCheck secp_local bname).1 = false →
      (filenameCheck secp_local bname).2 =
        ["❌ Filename mismatch: expected '" ++
          ((pyStr secp_local ++ ".json") ++ ("', got '" ++ (bname ++ "'")))]) := by
  refine ⟨?_, fun s => ?_, ?_⟩
  · simp only [filenameCheck]
    split <;> simp_all
  · simp only [filenameCheck, pyStr]
    split <;> simp_all
  · simp only [filenameCheck]
    split <;> simp_all

/-! ## C10 — check_logo on non-string input -/

/-- C10: on every non-string logo value (for example None, as produced when
a record lacks a logo field), check_logo raises an uncaught AttributeError
at the https-scheme test, independently of the fetch oracle (so before any
network fetch); on every string it returns an (ok, messages) pair. -/
theorem C10_check_logo_nonstring_raises
    (fetch : String → Except String (Nat × String)) (v : PyVal)
    (h : pyType v ≠ PyType.str) :
    check_logo fetch v = Except.error (PyErr.attributeError
      ("'" ++ (pyTypeName (pyType v) ++ "' object has no attribute 'startswith'"))) ∧
    (∀ s : String, ∃ r, check_logo fetch (PyVal.str s) = Except.ok r) := by
  constructor
  · cases v with
    | str s => exact absurd rfl h
    | none => rfl
    | bool b => rfl
    | int n => rfl
    | float t => rfl
    | list xs => rfl
    | dict kvs => rfl
  · intro s
    simp only [check_logo, pyStrAttr]
    rcases hf : fetch s with e | ⟨st, ct⟩ <;> simp [hf]

/-- C10 witness: at the concrete input None the AttributeError names the
NoneType, whatever the fetch would have returned. -/
theorem C10_witness :
    check_logo (fun _ => Except.ok (200, "image/png")) PyVal.none =
      Except.error (PyErr.attributeError
        "'NoneType' object has no attribute 'startswith'") ∧
    (∀ s : String, ∃ r,
      check_logo (fun _ => Except.ok (200, "image/png")) (PyVal.str s) = Except.ok r) :=
  C10_check_logo_nonstring_raises (fun _ => Except.ok (200, "image/png")) PyVal.none
    (by decide)

/-! ## C5 — check_schema never raises (corrected) -/

/-- C5 counterexample: on the non-mapping parsed JSON input [] (a list),
with a loadable reference example having field "id", check_schema raises an
AttributeError instead of returning ok=false, refuting the claim that the
Schema Checker never raises on malformed input. -/
theorem C5_cex_check_schema_raises_on_list :
    check_schema (Except.ok [("id", PyVal.str "x")]) (PyVal.list []) =
      Except.error (PyErr.attributeError "'list' object has no attribute 'keys'") := rfl

/-- schemaLoop1 never raises over a mapping record. -/
theorem schemaLoop1_dict_total (kvs : List (String × PyVal)) :
    ∀ exmpl, ∃ p, schemaLoop1 (PyVal.dict kvs) exmpl = Except.ok p := by
  intro exmpl
  induction exmpl with
  | nil => exact ⟨_, rfl⟩
  | cons kv rest ih =>
    obtain ⟨p, hp⟩ := ih
    obtain ⟨key, exVal⟩ := kv
    simp only [schemaLoop1, pyContains]
    by_cases hc : (kvs.any fun kv => kv.1 == key) = true
    · have hsome : (dictGet? kvs key).isSome = true := by
        rw [dictGet?_isSome_iff_any, hc]
      obtain ⟨w, hw⟩ := Option.isSome_iff_exists.mp hsome
      simp only [hc, if_true, pySubscr, hw, hp]
      split <;> exact ⟨_, rfl⟩
    · simp only [hc, if_false, hp, Bool.false_eq_true]
      exact ⟨_, rfl⟩

/-- C5 amended: check_schema involves no network effect (its only inputs
are the reference-example load outcome and the record) and, for every
mapping input with a successfully loaded reference example, returns an
(ok, messages) pair without raising; but a failed reference-example load
propagates as an uncaught exception (and, per the counterexample,
non-mapping inputs can raise). -/
theorem C5_amended_check_schema_total_on_mappings
    (exmpl kvs : List (String × PyVal)) :
    (∃ r, check_schema (Except.ok exmpl) (PyVal.dict kvs) = Except.ok r) ∧
    (∀ (e : String) (td : PyVal),
      check_schema (Except.error e) td = Except.error (PyErr.uncaught e)) := by
  constructor
  · obtain ⟨⟨ok, out⟩, hp⟩ := schemaLoop1_dict_total kvs exmpl
    exact ⟨(ok, out ++ schemaLoop2 exmpl (kvs.map Prod.fst)),
      by simp [check_schema, hp, pyKeys]⟩
  · intro e td
    rfl

/-! ## C3 — check_schema against the reference example -/

/-- Full characterization of the first check_schema loop over a mapping
record: it never raises, ok is true exactly when every reference field is
present with the same runtime type, and every missing reference field is
named in a missing-field message. -/
theorem schemaLoop1_dict_spec (kvs : List (String × PyVal)) (exmpl : List (String × PyVal)) :
    ∃ ok out, schemaLoop1 (PyVal.dict kvs) exmpl = Except.ok (ok, out) ∧
      (ok = true ↔ ∀ kv ∈ exmpl, ∃ tv, dictGet? kvs kv.1 = some tv ∧ pyType tv = pyType kv.2) ∧
      (∀ kv ∈ exmpl, dictGet? kvs kv.1 = Option.none → missingMsg kv.1 ∈ out) := by
  induction exmpl with
  | nil => exact ⟨true, [], rfl, by simp, by simp⟩
  | cons kv rest ih =>
    obtain ⟨ok, out, heq, hiff, hmiss⟩ := ih
    obtain ⟨key, exVal⟩ := kv
    by_cases hc : (kvs.any fun kv => kv.1 == key) = true
    · have hsome : (dictGet? kvs key).isSome = true := by
        rw [dictGet?_isSome_iff_any, hc]
      obtain ⟨w, hw⟩ := Option.isSome_iff_exists.mp hsome
      by_cases ht : (pyType w == pyType exVal) = true
      · refine ⟨ok, out, ?_, ?_, ?_⟩
        · simp only [schemaLoop1, pyContains, hc, if_true, pySubscr, hw, heq, ht]
        · rw [hiff]
          constructor
          · intro hall
            exact List.forall_mem_cons.mpr ⟨⟨w, hw, eq_of_beq ht⟩, hall⟩
          · intro hall kv' hkv'
            exact hall kv' (List.mem_cons_of_mem _ hkv')
        · intro kv' hkv' hnone
          rcases List.mem_cons.mp hkv' with h1 | h2
          · rw [h1] at hnone
            rw [hnone] at hw
            cases hw
          · exact hmiss kv' h2 hnone
      · refine ⟨false, typeMismatchMsg key exVal w :: out, ?_, ?_, ?_⟩
        · simp [schemaLoop1, pyContains, hc, pySubscr, hw, heq, ht]
        · simp only [Bool.false_eq_true, false_iff]
          intro hall
          obtain ⟨tv, htv, hty⟩ := hall (key, exVal) (List.mem_cons_self _ _)
          rw [hw] at htv
          cases htv
          exact ht (beq_iff_eq.mpr hty)
        · intro kv' hkv' hnone
          rcases List.mem_cons.mp hkv' with h1 | h2
          · rw [h1] at hnone
            rw [hnone] at hw
            cases hw
          · exact List.mem_cons_of_mem _ (hmiss kv' h2 hnone)
    · have hnone : dictGet? kvs key = Option.none := by
        have := dictGet?_isSome_iff_any kvs key
        rw [eq_false_of_ne_true hc] at this
        exact Option.not_isSome_iff_eq_none.mp (by simp [this])
      refine ⟨false, missingMsg key :: out, ?_, ?_, ?_⟩
      · simp only [schemaLoop1, pyContains, hc, if_false, heq, Bool.false_eq_true]
      · simp only [Bool.false_eq_true, false_iff]
        intro hall
        obtain ⟨tv, htv, _⟩ := hall (key, exVal) (List.mem_cons_self _ _)
        rw [hnone] at htv
        cases htv
      · intro kv' hkv' hnone'
        rcases List.mem_cons.mp hkv' with h1 | h2
        · rw [h1]
          exact List.mem_cons_self _ _
        · exact List.mem_cons_of_mem _ (hmiss kv' h2 hnone')

/-- Every record key missing from the reference example yields its
extra-field warning in the second check_schema loop. -/
theorem schemaLoop2_mem (exmpl : List (String × PyVal)) (keys : List String)
    (key : String) (hk : key ∈ keys)
    (habs : (exmpl.any fun kv => kv.1 == key) = false) :
    ("⚠️ Extra field not in schema: '" ++ (key ++ "'")) ∈ schemaLoop2 exmpl keys := by
  apply List.mem_filterMap.mpr
  exact ⟨key, hk, by simp [habs]⟩

/-- C3: over any mapping record and any reference example, check_schema
returns without raising; ok is true iff every reference field is present
in the record with exactly the same runtime value type; each missing
reference field is named in a missing-field message with ok=false forced;
and every record field absent from the reference example yields an
extra-field warning while ok is fully determined by the reference fields
alone (so extra fields never affect ok). -/
theorem C3_check_schema_ok_iff_fields_match (exmpl kvs : List (String × PyVal)) :
    ∃ ok out, check_schema (Except.ok exmpl) (PyVal.dict kvs) = Except.ok (ok, out) ∧
      (ok = true ↔
        ∀ kv ∈ exmpl, ∃ tv, dictGet? kvs kv.1 = some tv ∧ pyType tv = pyType kv.2) ∧
      (∀ kv ∈ exmpl, dictGet? kvs kv.1 = Option.none → missingMsg kv.1 ∈ out) ∧
      (∀ key ∈ kvs.map Prod.fst, (exmpl.any fun kv => kv.1 == key) = false →
        ("⚠️ Extra field not in schema: '" ++ (key ++ "'")) ∈ out) := by
  obtain ⟨ok, out1, heq, hiff, hmiss⟩ := schemaLoop1_dict_spec kvs exmpl
  refine ⟨ok, out1 ++ schemaLoop2 exmpl (kvs.map Prod.fst), ?_, hiff, ?_, ?_⟩
  · simp [check_schema, heq, pyKeys]
  · intro kv hkv hnone
    exact List.mem_append_left _ (hmiss kv hkv hnone)
  · intro key hk habs
    exact List.mem_append_right _ (schemaLoop2_mem exmpl _ key hk habs)

/-! ## C6 — aggregator read_validators (corrected) -/

/-- C6 counterexample: a single parseable file whose top level is a JSON
list rather than an object makes read_validators raise an uncaught
AttributeError — the file is not skipped with a warning, refuting the
claim that read_validators never raises on a malformed individual file. -/
theorem C6_cex_read_validators_raises_on_list :
    read_validators [("bad.json", Except.ok (PyVal.list []))] =
      Except.error (PyErr.attributeError "'list' object has no attribute 'get'") := rfl

/-- A parsed aggregator file whose loop body finishes without raising: a
JSON object whose effective name value (data.get("name", "")) is a string
and whose secp value (data.get("secp", "")) is hashable. -/
def aggProcessable (d : PyVal) : Bool :=
  match d with
  | .dict kvs =>
    (match (dictGet? kvs "name").getD (.str "") with
     | .str _ => true
     | _ => false) &&
    pyHashable ((dictGet? kvs "secp").getD (.str ""))
  | _ => false

/-- The read_validators loop completes over any starting accumulator when
every successfully parsed file is processable, and each load failure
leaves its warning. -/
theorem readValidatorsLoop_spec (files : List (String × Except String PyVal)) :
    ∀ acc, (∀ p ∈ files, ∀ d, p.2 = Except.ok d → aggProcessable d = true) →
      ∃ dict warns, readValidatorsLoop acc files = Except.ok (dict, warns) ∧
        ∀ p ∈ files, ∀ e, p.2 = Except.error e →
          ("Warning: Failed to read " ++ (p.1 ++ (": " ++ e))) ∈ warns := by
  induction files with
  | nil =>
    intro acc _
    exact ⟨acc, [], rfl, by simp⟩
  | cons p rest ih =>
    intro acc hgood
    obtain ⟨fname, load⟩ := p
    cases load with
    | error e =>
      obtain ⟨dict, warns, heq, hwarn⟩ :=
        ih acc (fun q hq => hgood q (List.mem_cons_of_mem _ hq))
      refine ⟨dict, ("Warning: Failed to read " ++ (fname ++ (": " ++ e))) :: warns, ?_, ?_⟩
      · simp only [readValidatorsLoop, heq]
      · intro q hq e' he'
        rcases List.mem_cons.mp hq with h1 | h2
        · rw [h1] at he' ⊢
          cases he'
          exact List.mem_cons_self _ _
        · exact List.mem_cons_of_mem _ (hwarn q h2 e' he')
    | ok data =>
      have hp := hgood (fname, Except.ok data) (List.mem_cons_self _ _) data rfl
      cases data with
      | dict kvs =>
        rw [aggProcessable, Bool.and_eq_true] at hp
        obtain ⟨hname, hhash⟩ := hp
        cases hnv : (dictGet? kvs "name").getD (PyVal.str "") with
        | str s =>
          by_cases htrim : (pyStrip s == "") = true
          · obtain ⟨dict, warns, heq, hwarn⟩ :=
              ih (pdictSet acc ((dictGet? kvs "secp").getD (PyVal.str ""))
                (PyVal.dict (pyDictSet.go "name" ((dictGet? kvs "secp").getD (PyVal.str "")) kvs)))
                (fun q hq => hgood q (List.mem_cons_of_mem _ hq))
            refine ⟨dict, warns, ?_, ?_⟩
            · simp only [readValidatorsLoop, pyGet, dGet, hnv, pyStrAttr, htrim, if_true,
                pyDictSet, hhash, heq]
            · intro q hq e' he'
              rcases List.mem_cons.mp hq with h1 | h2
              · rw [h1] at he'
                cases he'
              · exact hwarn q h2 e' he'
          · obtain ⟨dict, warns, heq, hwarn⟩ :=
              ih (pdictSet acc ((dictGet? kvs "secp").getD (PyVal.str "")) (PyVal.dict kvs))
                (fun q hq => hgood q (List.mem_cons_of_mem _ hq))
            refine ⟨dict, warns, ?_, ?_⟩
            · simp only [readValidatorsLoop, pyGet, dGet, hnv, pyStrAttr, htrim, if_false,
                hhash, heq, Bool.false_eq_true]
              simp
            · intro q hq e' he'
              rcases List.mem_cons.mp hq with h1 | h2
              · rw [h1] at he'
                cases he'
              · exact hwarn q h2 e' he'
        | none => rw [hnv] at hname; cases hname
        | bool b => rw [hnv] at hname; cases hname
        | int n => rw [hnv] at hname; cases hname
        | float t => rw [hnv] at hname; cases hname
        | list xs => rw [hnv] at hname; cases hname
        | dict kvs' => rw [hnv] at hname; cases hname
      | none => cases hp
      | bool b => cases hp
      | int n => cases hp
      | float t => cases hp
      | str s => cases hp
      | list xs => cases hp

/-- C6 amended: read_validators never raises on a file whose load fails
with one of the two caught exception classes — such a file is skipped with
a warning naming it — and aggregation of the remaining files completes,
provided every file that does parse is a JSON object whose name value is a
string and whose secp value is hashable.  (Per the counterexample, a
parseable file with a non-object top level — and likewise a non-string
name — instead raises an uncaught AttributeError that aborts the run.) -/
theorem C6_amended_read_validators_skips_load_errors
    (files : List (String × Except String PyVal))
    (h : ∀ p ∈ files, ∀ d, p.2 = Except.ok d → aggProcessable d = true) :
    ∃ dict warns, read_validators files = Except.ok (dict, warns) ∧
      ∀ p ∈ files, ∀ e, p.2 = Except.error e →
        ("Warning: Failed to read " ++ (p.1 ++ (": " ++ e))) ∈ warns :=
  readValidatorsLoop_spec files [] h

/-- C6 witness: one unreadable file and one well-formed file; the
aggregation completes and the unreadable file's warning is present. -/
theorem C6_witness :
    ∃ dict warns,
      read_validators [("a.json", Except.error "boom"),
          ("b.json", Except.ok (PyVal.dict [("secp", PyVal.str "k"), ("name", PyVal.str "x")]))] =
        Except.ok (dict, warns) ∧
      ∀ p ∈ [(("a.json" : String), (Except.error "boom" : Except String PyVal)),
          ("b.json", Except.ok (PyVal.dict [("secp", PyVal.str "k"), ("name", PyVal.str "x")]))],
        ∀ e, p.2 = Except.error e →
          ("Warning: Failed to read " ++ (p.1 ++ (": " ++ e))) ∈ warns :=
  C6_amended_read_validators_skips_load_errors _ (by
    intro p hp d hd
    rcases List.mem_cons.mp hp with h1 | h2
    · rw [h1] at hd
      cases hd
    · rcases List.mem_cons.mp h2 with h1 | h3
      · rw [h1] at hd
        cases hd
        rfl
      · cases h3)

/-! ## Diagnostic lines versus the success banner

Every line the record validator can emit other than the banner itself has a
fixed head whose first one or two characters differ from the banner's, so
list membership of the banner in a report pins down exactly the appended
banner occurrence, whatever strings get interpolated into the other lines. -/

/-- No header line equals the success banner. -/
theorem banner_not_mem_header (network : String) (a b c : PyVal) :
    successBanner ∉ headerLines network a b c := by
  intro hmem
  simp only [headerLines, List.mem_cons, List.not_mem_nil, or_false] at hmem
  rcases hmem with h | h | h | h | h
  · exact append_ne_of_take _ _ _ 2 (by decide) (by decide) h.symm
  · exact append_ne_of_take _ _ _ 1 (by decide) (by decide) h.symm
  · exact append_ne_of_take _ _ _ 1 (by decide) (by decide) h.symm
  · exact append_ne_of_take _ _ _ 1 (by decide) (by decide) h.symm
  · exact (by decide : ("✅ JSON is valid" : String) ≠ successBanner) h.symm

/-- No name-check line equals the success banner. -/
theorem banner_not_mem_nameCheck (v : PyVal) : successBanner ∉ (nameCheck v).2 := by
  have hlit : successBanner ≠ "❌ Invalid 'name': field is empty or missing" := by decide
  cases v with
  | str s =>
    simp only [nameCheck]
    split
    · simp only [List.mem_singleton]
      exact hlit
    · simp only [List.mem_singleton]
      intro h
      exact append_ne_of_take _ _ _ 1 (by decide) (by decide) h.symm
  | none => simpa [nameCheck] using hlit
  | bool b => simpa [nameCheck] using hlit
  | int n => simpa [nameCheck] using hlit
  | float t => simpa [nameCheck] using hlit
  | list xs => simpa [nameCheck] using hlit
  | dict kvs => simpa [nameCheck] using hlit

/-- Every message check_logo returns starts with the cross mark, hence is
not the success banner. -/
theorem banner_not_mem_check_logo (fetch : String → Except String (Nat × String))
    (u : PyVal) (b : Bool) (msgs : List String)
    (h : check_logo fetch u = Except.ok (b, msgs)) : successBanner ∉ msgs := by
  intro hmem
  simp only [check_logo] at h
  split at h
  · cases h
  · split at h
    · cases h
      simp only [List.mem_append, List.mem_singleton] at hmem
      rcases hmem with hm | hm | hm
      · revert hm
        split
        · simp only [List.mem_singleton]
          intro hm
          exact (by decide : successBanner ≠ "❌ Invalid 'logo': field is missing or empty") hm
        · simp
      · revert hm
        split
        · simp only [List.mem_singleton]
          intro hm
          exact (by decide : successBanner ≠ "❌ Invalid 'logo': must start with https://") hm
        · simp
      · exact append_ne_of_take _ _ _ 1 (by decide) (by decide) hm.symm
    · cases h
      simp only [List.mem_append] at hmem
      rcases hmem with hm | hm | hm | hm
      · revert hm
        split
        · simp only [List.mem_singleton]
          intro hm
          exact (by decide : successBanner ≠ "❌ Invalid 'logo': field is missing or empty") hm
        · simp
      · revert hm
        split
        · simp only [List.mem_singleton]
          intro hm
          exact (by decide : successBanner ≠ "❌ Invalid 'logo': must start with https://") hm
        · simp
      · revert hm
        split
        · simp only [List.mem_singleton]
          intro hm
          exact append_ne_of_take _ _ _ 1 (by decide) (by decide) hm.symm
        · simp
      · revert hm
        split
        · simp only [List.mem_singleton]
          intro hm
          exact append_ne_of_take _ _ _ 1 (by decide) (by decide) hm.symm
        · simp

/-- No secp-comparison line equals the success banner. -/
theorem banner_not_mem_secpCheck (sc : String) (v : PyVal) :
    successBanner ∉ (secpCheck sc v).2 := by
  simp only [secpCheck]
  split <;> simp only [List.mem_singleton] <;> intro h
  · exact (by decide : ("✅ SECP key matches on-chain value" : String) ≠ successBanner) h.symm
  · exact append_ne_of_take _ _ _ 1 (by decide) (by decide) h.symm

/-- No bls-comparison line equals the success banner. -/
theorem banner_not_mem_blsCheck (bc : String) (v : PyVal) :
    successBanner ∉ (blsCheck bc v).2 := by
  simp only [blsCheck]
  split <;> simp only [List.mem_singleton] <;> intro h
  · exact (by decide : ("✅ BLS key matches on-chain value" : String) ≠ successBanner) h.symm
  · exact append_ne_of_take _ _ _ 1 (by decide) (by decide) h.symm

/-- No filename-check line equals the success banner. -/
theorem banner_not_mem_filenameCheck (v : PyVal) (bname : String) :
    successBanner ∉ (filenameCheck v bname).2 := by
  simp only [filenameCheck]
  split <;> simp only [List.mem_singleton] <;> intro h
  · exact (by decide : ("✅ Filename matches secp key" : String) ≠ successBanner) h.symm
  · exact append_ne_of_take _ _ _ 1 (by decide) (by decide) h.symm

/-- The verdict of the four non-terminal checks of check_filename, as the
code conjoins them: name, logo, secp, bls, filename. -/
def recordVerdict (kvs : List (String × PyVal)) (bname : String)
    (logoOk : Bool) (sc bc : String) : Bool :=
  (nameCheck (dGet kvs "name" (PyVal.str ""))).1 &&
    (logoOk && ((secpCheck sc (dGet kvs "secp" PyVal.none)).1 &&
      ((blsCheck bc (dGet kvs "bls" PyVal.none)).1 &&
        (filenameCheck (dGet kvs "secp" PyVal.none) bname).1)))

/-- The lines the logo step of check_filename appends, given check_logo's
result (logoOk, lout). -/
def logoOutLines (kvs : List (String × PyVal)) (logoOk : Bool) (lout : List String) :
    List String :=
  if logoOk then ["✅ Logo is valid"]
  else lout ++ ["❌ Logo " ++ (pyStr (dGet kvs "logo" PyVal.none) ++ " check failed")]

/-- The lines the four non-terminal checks of check_filename append, with
the banner appended exactly when all of them passed. -/
def postOutLines (kvs : List (String × PyVal)) (bname : String)
    (logoOk : Bool) (lout : List String) (sc bc : String) : List String :=
  (nameCheck (dGet kvs "name" (PyVal.str ""))).2 ++
    (logoOutLines kvs logoOk lout ++
      ((secpCheck sc (dGet kvs "secp" PyVal.none)).2 ++
        ((blsCheck bc (dGet kvs "bls" PyVal.none)).2 ++
          ((filenameCheck (dGet kvs "secp" PyVal.none) bname).2 ++
            (if recordVerdict kvs bname logoOk sc bc then [successBanner] else [])))))

/-- The characterization of the four non-terminal checks: when check_logo
returns and the on-chain call returns, postSchemaChecks returns the
conjunction of the four check verdicts together with the concatenation of
their messages, the banner appended exactly on full success. -/
theorem postSchemaChecks_spec (env : Env) (network bname : String)
    (kvs : List (String × PyVal)) (logoOk : Bool) (lout : List String) (sc bc : String)
    (hlogo : check_logo env.fetch (dGet kvs "logo" PyVal.none) = Except.ok (logoOk, lout))
    (hchain : env.chain (dGet kvs "id" PyVal.none) network = Except.ok (sc, bc)) :
    postSchemaChecks env network bname (PyVal.dict kvs)
        (dGet kvs "id" PyVal.none) (dGet kvs "secp" PyVal.none) (dGet kvs "bls" PyVal.none)
      = Except.ok (recordVerdict kvs bname logoOk sc bc,
          postOutLines kvs bname logoOk lout sc bc) := by
  simp only [postSchemaChecks, pyGet, hlogo, hchain, recordVerdict, postOutLines,
    logoOutLines]

/-- The banner occurs among the lines of the four non-terminal checks
exactly when their conjoined verdict is true. -/
theorem banner_mem_postOutLines (env : Env) (kvs : List (String × PyVal))
    (bname : String) (logoOk : Bool) (lout : List String) (sc bc : String)
    (hlogo : check_logo env.fetch (dGet kvs "logo" PyVal.none) = Except.ok (logoOk, lout)) :
    (successBanner ∈ postOutLines kvs bname logoOk lout sc bc ↔
      recordVerdict kvs bname logoOk sc bc = true) := by
  simp only [postOutLines, List.mem_append]
  constructor
  · intro hmem
    rcases hmem with hm | hm | hm | hm | hm | hm
    · exact absurd hm (banner_not_mem_nameCheck _)
    · exfalso
      revert hm
      simp only [logoOutLines]
      split
      · simp only [List.mem_singleton]
        intro hm
        exact (by decide : successBanner ≠ "✅ Logo is valid") hm
      · simp only [List.mem_append, List.mem_singleton]
        intro hm
        rcases hm with hm | hm
        · exact (banner_not_mem_check_logo env.fetch _ _ _ hlogo) hm
        · exact append_ne_of_take _ _ _ 1 (by decide) (by decide) hm.symm
    · exact absurd hm (banner_not_mem_secpCheck _ _)
    · exact absurd hm (banner_not_mem_blsCheck _ _)
    · exact absurd hm (banner_not_mem_filenameCheck _ _)
    · revert hm
      split
      · intro _
        assumption
      · simp
  · intro hv
    refine Or.inr (Or.inr (Or.inr (Or.inr (Or.inr ?_))))
    rw [hv]
    simp

/-! ## C1 — final verdict and banner -/

/-- C1: for every record that passes the Load and Schema states (and whose
logo check and on-chain call return), the final verdict is true iff the
Name, Logo, Identity (both the secp and the bls comparison) and Filename
checks all pass, and the closing success banner line is in the report
exactly when the final verdict is true. -/
theorem C1_verdict_iff_all_checks_and_banner
    (env : Env) (network filename : String) (kvs : List (String × PyVal))
    (souts lout : List String) (logoOk : Bool) (sc bc : String)
    (hload : env.fileLoad network filename = LoadResult.ok (PyVal.dict kvs))
    (hschema : check_schema env.exampleLoad (PyVal.dict kvs) = Except.ok (true, souts))
    (hlogo : check_logo env.fetch (dGet kvs "logo" PyVal.none) = Except.ok (logoOk, lout))
    (hchain : env.chain (dGet kvs "id" PyVal.none) network = Except.ok (sc, bc)) :
    ∃ out, check_filename env network filename =
        Except.ok (recordVerdict kvs (basename filename) logoOk sc bc, out) ∧
      (recordVerdict kvs (basename filename) logoOk sc bc = true ↔
        ((nameCheck (dGet kvs "name" (PyVal.str ""))).1 = true ∧
         logoOk = true ∧
         (secpCheck sc (dGet kvs "secp" PyVal.none)).1 = true ∧
         (blsCheck bc (dGet kvs "bls" PyVal.none)).1 = true ∧
         (filenameCheck (dGet kvs "secp" PyVal.none) (basename filename)).1 = true)) ∧
      (successBanner ∈ out ↔ recordVerdict kvs (basename filename) logoOk sc bc = true) := by
  have hpost := postSchemaChecks_spec env network (basename filename) kvs logoOk lout sc bc
    hlogo hchain
  refine ⟨headerLines network (dGet kvs "id" PyVal.none) (dGet kvs "secp" PyVal.none)
      (dGet kvs "bls" PyVal.none) ++
    (["✅ Schema and types match"] ++
      postOutLines kvs (basename filename) logoOk lout sc bc), ?_, ?_, ?_⟩
  · simp only [check_filename, hload, hschema, hpost, pyGet, Bool.not_true,
      Bool.false_eq_true, if_false]
  · simp only [recordVerdict, Bool.and_eq_true]
  · simp only [List.mem_append, List.mem_singleton]
    constructor
    · intro hm
      rcases hm with hm | hm | hm
      · exact absurd hm (banner_not_mem_header network _ _ _)
      · exact absurd hm (by decide : successBanner ≠ "✅ Schema and types match")
      · exact (banner_mem_postOutLines env kvs _ logoOk lout sc bc hlogo).mp hm
    · intro hv
      exact Or.inr (Or.inr
        ((banner_mem_postOutLines env kvs _ logoOk lout sc bc hlogo).mpr hv))

/-- A concrete record on which every check passes, its reference example,
and an environment where the logo fetch and the on-chain call succeed. -/
def okRecord : List (String × PyVal) :=
  [("id", PyVal.str "7"), ("secp", PyVal.str "ab12"), ("bls", PyVal.str "cd34"),
   ("name", PyVal.str "Val"), ("logo", PyVal.str "https://x/y.png")]

/-- A reference example with the same field set and value types. -/
def okExample : List (String × PyVal) :=
  [("id", PyVal.str "1"), ("secp", PyVal.str "s"), ("bls", PyVal.str "b"),
   ("name", PyVal.str "n"), ("logo", PyVal.str "l")]

/-- An environment whose record file loads okRecord, whose example loads
okExample, whose logo fetch succeeds with an image, and whose on-chain
call returns the record's keys. -/
def okEnv : Env :=
  ⟨fun _ _ => LoadResult.ok (PyVal.dict okRecord), Except.ok okExample,
   fun _ => Except.ok (200, "image/png"), fun _ _ => Except.ok ("ab12", "cd34")⟩

/-- C1 witness: the concrete conformant record validates with a true
verdict and the banner in its report. -/
theorem C1_witness :
    ∃ out, check_filename okEnv "mainnet" "ab12.json" = Except.ok (true, out) ∧
      successBanner ∈ out := by
  obtain ⟨out, heq, _, hb⟩ := C1_verdict_iff_all_checks_and_banner okEnv "mainnet" "ab12.json"
    okRecord [] [] true "ab12" "cd34" rfl rfl rfl rfl
  have hv : recordVerdict okRecord (basename "ab12.json") true "ab12" "cd34" = true := rfl
  rw [hv] at heq
  exact ⟨out, heq, hb.mpr hv⟩

/-! ## C2 — schema failure is terminal -/

/-- C2: on a record whose schema check fails, check_filename returns a
failing verdict immediately, the report stopping at the schema messages;
and the result is the same under any logo-fetch and on-chain oracles (so
neither the logo fetch nor the on-chain call is evaluated), the name and
filename checks contributing nothing. -/
theorem C2_schema_failure_is_terminal
    (env env' : Env) (network filename : String) (kvs : List (String × PyVal))
    (souts : List String)
    (hload : env.fileLoad network filename = LoadResult.ok (PyVal.dict kvs))
    (hload' : env'.fileLoad network filename = LoadResult.ok (PyVal.dict kvs))
    (hex : env'.exampleLoad = env.exampleLoad)
    (hschema : check_schema env.exampleLoad (PyVal.dict kvs) = Except.ok (false, souts)) :
    check_filename env network filename = Except.ok (false,
      headerLines network (dGet kvs "id" PyVal.none) (dGet kvs "secp" PyVal.none)
          (dGet kvs "bls" PyVal.none) ++
        (souts ++ ["❌ Schema check failed"])) ∧
    check_filename env' network filename = check_filename env network filename := by
  have h1 : check_filename env network filename = Except.ok (false,
      headerLines network (dGet kvs "id" PyVal.none) (dGet kvs "secp" PyVal.none)
          (dGet kvs "bls" PyVal.none) ++
        (souts ++ ["❌ Schema check failed"])) := by
    simp only [check_filename, hload, pyGet, hschema, Bool.not_false, if_true]
  refine ⟨h1, ?_⟩
  rw [h1]
  simp only [check_filename, hload', pyGet, hex, hschema, Bool.not_false, if_true]

/-- A record missing most reference fields: its schema check fails. -/
def badRecord : List (String × PyVal) :=
  [("id", PyVal.str "7")]

/-- Like okEnv but loading badRecord. -/
def badEnv : Env :=
  ⟨fun _ _ => LoadResult.ok (PyVal.dict badRecord), Except.ok okExample,
   fun _ => Except.ok (200, "image/png"), fun _ _ => Except.ok ("ab12", "cd34")⟩

/-- Like badEnv but with a dead network and a dead chain endpoint. -/
def badEnvDead : Env :=
  ⟨fun _ _ => LoadResult.ok (PyVal.dict badRecord), Except.ok okExample,
   fun _ => Except.error "network down", fun _ _ => Except.error "rpc down"⟩

/-- C2 witness: on the concrete schema-failing record the verdict is an
immediate false, and killing the logo and chain oracles changes nothing. -/
theorem C2_witness :
    (∃ out, check_filename badEnv "mainnet" "x.json" = Except.ok (false, out)) ∧
    check_filename badEnvDead "mainnet" "x.json" =
      check_filename badEnv "mainnet" "x.json" := by
  obtain ⟨h1, h2⟩ := C2_schema_failure_is_terminal badEnv badEnvDead "mainnet" "x.json"
    badRecord [missingMsg "secp", missingMsg "bls", missingMsg "name", missingMsg "logo"]
    rfl rfl rfl rfl
  exact ⟨⟨_, h1⟩, h2⟩

/-! ## C4 — on-chain failure propagates and aborts the batch -/

/-- An error raised while validating one file propagates through the batch
loop past any earlier successfully validated files. -/
theorem mainLoop_propagates (env : Env) (network : String) (verbose : Bool) (er : PyErr) :
    ∀ (pre : List String) (filename : String) (post : List String),
      (∀ g ∈ pre, ∃ r, check_filename env network g = Except.ok r) →
      check_filename env network filename = Except.error er →
      mainLoop env network verbose (pre ++ filename :: post) = Except.error er := by
  intro pre
  induction pre with
  | nil =>
    intro f post _ hf
    simp only [List.nil_append, mainLoop, hf]
  | cons g gs ih =>
    intro f post hpre hf
    obtain ⟨⟨v, out⟩, hg⟩ := hpre g (List.mem_cons_self _ _)
    simp only [List.cons_append, mainLoop, hg, List.append_eq,
      ih f post (fun q hq => hpre q (List.mem_cons_of_mem _ hq)) hf]

/-- C4: when the on-chain call for a record raises, the exception is not
caught anywhere: check_filename propagates it instead of producing a
verdict, and the whole batch run aborts with it (whatever files come
before — provided they validated — or after), rather than the record being
marked as a key mismatch. -/
theorem C4_chain_error_uncaught_aborts_batch
    (env : Env) (network filename : String) (kvs : List (String × PyVal))
    (souts lout : List String) (logoOk : Bool) (e : String) (verbose : Bool)
    (pre post : List String)
    (hload : env.fileLoad network filename = LoadResult.ok (PyVal.dict kvs))
    (hschema : check_schema env.exampleLoad (PyVal.dict kvs) = Except.ok (true, souts))
    (hlogo : check_logo env.fetch (dGet kvs "logo" PyVal.none) = Except.ok (logoOk, lout))
    (hchain : env.chain (dGet kvs "id" PyVal.none) network = Except.error e)
    (hpre : ∀ g ∈ pre, ∃ r, check_filename env network g = Except.ok r) :
    check_filename env network filename = Except.error (PyErr.uncaught e) ∧
    runMain env network verbose (pre ++ filename :: post) =
      BatchResult.aborted (PyErr.uncaught e) := by
  have h1 : check_filename env network filename = Except.error (PyErr.uncaught e) := by
    simp only [check_filename, hload, pyGet, hschema, Bool.not_true, Bool.false_eq_true,
      if_false, postSchemaChecks, hlogo, hchain]
  refine ⟨h1, ?_⟩
  simp only [runMain, mainLoop_propagates env network verbose _ pre filename post hpre h1]

/-- Like okEnv but with a dead chain endpoint. -/
def okEnvDeadChain : Env :=
  ⟨fun _ _ => LoadResult.ok (PyVal.dict okRecord), Except.ok okExample,
   fun _ => Except.ok (200, "image/png"), fun _ _ => Except.error "rpc down"⟩

/-- C4 witness: the concrete conformant record under a dead chain endpoint
propagates the error and aborts the (singleton) batch. -/
theorem C4_witness :
    check_filename okEnvDeadChain "mainnet" "ab12.json" =
      Except.error (PyErr.uncaught "rpc down") ∧
    runMain okEnvDeadChain "mainnet" false ([] ++ "ab12.json" :: []) =
      BatchResult.aborted (PyErr.uncaught "rpc down") :=
  C4_chain_error_uncaught_aborts_batch okEnvDeadChain "mainnet" "ab12.json" okRecord
    [] [] true "rpc down" false [] [] rfl rfl rfl rfl
    (fun g hg => absurd hg (List.not_mem_nil g))

/-! ## C8 — empty name: recorded, the rest still runs -/

/-- C8: a record whose name field trims to empty but that passes Load and
Schema gets the name-failure message recorded, while the Logo, Identity
and Filename checks still run and their messages appear in the report, and
the overall verdict is false (so no banner line). -/
theorem C8_empty_name_nonterminal
    (env : Env) (network filename : String) (kvs : List (String × PyVal))
    (souts lout : List String) (logoOk : Bool) (sc bc : String) (s : String)
    (hload : env.fileLoad network filename = LoadResult.ok (PyVal.dict kvs))
    (hschema : check_schema env.exampleLoad (PyVal.dict kvs) = Except.ok (true, souts))
    (hlogo : check_logo env.fetch (dGet kvs "logo" PyVal.none) = Except.ok (logoOk, lout))
    (hchain : env.chain (dGet kvs "id" PyVal.none) network = Except.ok (sc, bc))
    (hname : dGet kvs "name" (PyVal.str "") = PyVal.str s)
    (htrim : pyStrip s = "") :
    check_filename env network filename = Except.ok (false,
      headerLines network (dGet kvs "id" PyVal.none) (dGet kvs "secp" PyVal.none)
          (dGet kvs "bls" PyVal.none) ++
        (["✅ Schema and types match"] ++
          (["❌ Invalid 'name': field is empty or missing"] ++
            (logoOutLines kvs logoOk lout ++
              ((secpCheck sc (dGet kvs "secp" PyVal.none)).2 ++
                ((blsCheck bc (dGet kvs "bls" PyVal.none)).2 ++
                  ((filenameCheck (dGet kvs "secp" PyVal.none) (basename filename)).2 ++
                    []))))))) := by
  have hpost := postSchemaChecks_spec env network (basename filename) kvs logoOk lout sc bc
    hlogo hchain
  have hnc : nameCheck (dGet kvs "name" (PyVal.str "")) =
      (false, ["❌ Invalid 'name': field is empty or missing"]) := by
    rw [hname]
    simp [nameCheck, htrim]
  have hv : recordVerdict kvs (basename filename) logoOk sc bc = false := by
    simp [recordVerdict, hnc]
  simp only [check_filename, hload, pyGet, hschema, Bool.not_true, Bool.false_eq_true,
    if_false, hpost, hv, postOutLines, hnc, Bool.false_eq_true]

/-- Like okEnv but the record's name is all whitespace. -/
def emptyNameRecord : List (String × PyVal) :=
  [("id", PyVal.str "7"), ("secp", PyVal.str "ab12"), ("bls", PyVal.str "cd34"),
   ("name", PyVal.str " "), ("logo", PyVal.str "https://x/y.png")]

/-- An environment loading emptyNameRecord with everything else healthy. -/
def emptyNameEnv : Env :=
  ⟨fun _ _ => LoadResult.ok (PyVal.dict emptyNameRecord), Except.ok okExample,
   fun _ => Except.ok (200, "image/png"), fun _ _ => Except.ok ("ab12", "cd34")⟩

/-- C8 witness: the concrete whitespace-name record fails overall while the
name message and the logo, identity and filename lines all appear. -/
theorem C8_witness :
    ∃ out, check_filename emptyNameEnv "mainnet" "ab12.json" = Except.ok (false, out) ∧
      "❌ Invalid 'name': field is empty or missing" ∈ out ∧
      "✅ Logo is valid" ∈ out ∧
      "✅ SECP key matches on-chain value" ∈ out ∧
      "✅ BLS key matches on-chain value" ∈ out ∧
      "✅ Filename matches secp key" ∈ out := by
  have h := C8_empty_name_nonterminal emptyNameEnv "mainnet" "ab12.json" emptyNameRecord
    [] [] true "ab12" "cd34" " " rfl rfl rfl rfl rfl rfl
  exact ⟨_, h, by decide, by decide, by decide, by decide, by decide⟩

/-! ## C9 — batch runner accumulates failures -/

/-- Whether a file's validation returns a false verdict (the batch runner's
criterion for adding it to problems). -/
def recordFails (env : Env) (network f : String) : Bool :=
  match check_filename env network f with
  | .ok (v, _) => !v
  | .error _ => false

/-- The report a file's validation returns. -/
def reportOf (env : Env) (network f : String) : List String :=
  match check_filename env network f with
  | .ok (_, out) => out
  | .error _ => []

/-- The batch loop, when every validation returns, collects exactly the
files with a false verdict as problems and prints exactly the reports of
failing files (of all files in verbose mode). -/
theorem mainLoop_filter_spec (env : Env) (network : String) (verbose : Bool) :
    ∀ filenames : List String,
      (∀ f ∈ filenames, ∃ r, check_filename env network f = Except.ok r) →
      mainLoop env network verbose filenames = Except.ok
        (filenames.filter (fun f => recordFails env network f),
         (filenames.filter (fun f => recordFails env network f || verbose)).map
           (fun f => String.intercalate "\n" (reportOf env network f))) := by
  intro filenames
  induction filenames with
  | nil => intro _; rfl
  | cons f rest ih =>
    intro h
    obtain ⟨⟨v, out⟩, hf⟩ := h f (List.mem_cons_self _ _)
    have hrest := ih (fun q hq => h q (List.mem_cons_of_mem _ hq))
    have hfail : recordFails env network f = !v := by
      simp [recordFails, hf]
    have hrep : reportOf env network f = out := by
      simp [reportOf, hf]
    simp only [mainLoop, hf, hrest, List.filter_cons, hfail, List.map_cons]
    cases v <;> cases verbose <;> simp [hrep]

/-- C9: over any resolved file list on which every per-record validation
returns, the Batch Runner accumulates exactly the files whose verdict is
false as problems, prints a record's full report exactly when it failed or
verbose mode is on, and raises the single terminating exception carrying
the failing filenames iff that subset is non-empty, reporting success
otherwise. -/
theorem C9_batch_runner_failures_and_outcome
    (env : Env) (network : String) (verbose : Bool) (filenames : List String)
    (h : ∀ f ∈ filenames, ∃ r, check_filename env network f = Except.ok r) :
    mainLoop env network verbose filenames = Except.ok
      (filenames.filter (fun f => recordFails env network f),
       (filenames.filter (fun f => recordFails env network f || verbose)).map
         (fun f => String.intercalate "\n" (reportOf env network f))) ∧
    runMain env network verbose filenames =
      (if (filenames.filter (fun f => recordFails env network f)).isEmpty
       then BatchResult.success
       else BatchResult.failed ("❌ Validation failed for " ++
         (toString (filenames.filter (fun f => recordFails env network f)).length ++
          (" files: " ++
           String.intercalate " "
             (filenames.filter (fun f => recordFails env network f)))))) := by
  have hloop := mainLoop_filter_spec env network verbose filenames h
  refine ⟨hloop, ?_⟩
  simp only [runMain, hloop]
  cases hfil : filenames.filter (fun f => recordFails env network f) with
  | nil => simp
  | cons p ps => simp

/-- An environment whose files all load okRecord except the file bad.json,
which loads badRecord (schema failure). -/
def mixedEnv : Env :=
  ⟨fun _ f => if f = "bad.json" then LoadResult.ok (PyVal.dict badRecord)
              else LoadResult.ok (PyVal.dict okRecord),
   Except.ok okExample,
   fun _ => Except.ok (200, "image/png"), fun _ _ => Except.ok ("ab12", "cd34")⟩

/-- C9 witness: a twofile batch where bad.json fails schema and ab12.json
passes; the problems list is exactly ["bad.json"] and the run raises the
exception naming it. -/
theorem C9_witness :
    mainLoop mixedEnv "mainnet" false ["ab12.json", "bad.json"] = Except.ok
      ((["ab12.json", "bad.json"].filter
          (fun f => recordFails mixedEnv "mainnet" f)),
       ((["ab12.json", "bad.json"].filter
          (fun f => recordFails mixedEnv "mainnet" f || false)).map
         (fun f => String.intercalate "\n" (reportOf mixedEnv "mainnet" f)))) ∧
    runMain mixedEnv "mainnet" false ["ab12.json", "bad.json"] =
      (if (["ab12.json", "bad.json"].filter
            (fun f => recordFails mixedEnv "mainnet" f)).isEmpty
       then BatchResult.success
       else BatchResult.failed ("❌ Validation failed for " ++
         (toString (["ab12.json", "bad.json"].filter
            (fun f => recordFails mixedEnv "mainnet" f)).length ++
          (" files: " ++
           String.intercalate " "
             (["ab12.json", "bad.json"].filter
                (fun f => recordFails mixedEnv "mainnet" f)))))) :=
  C9_batch_runner_failures_and_outcome mixedEnv "mainnet" false
    ["ab12.json", "bad.json"] (by
      intro f hf
      rcases List.mem_cons.mp hf with h1 | h2
      · exact ⟨_, by rw [h1]; rfl⟩
      · rcases List.mem_cons.mp h2 with h1 | h3
        · exact ⟨_, by rw [h1]; rfl⟩
        · cases h3)

end ValidatorInfo
